import Mathlib

/-!
Verification of the InvokeAI frontend `system` Redux slice
(`src/invokeai/frontend/web/src/features/system/store/systemSlice.ts`).

The slice is a synchronous event reducer over a single aggregate
`SystemState`: socket lifecycle events and user-preference actions are
reduced one at a time against the current state.  We embed the state, the
action type, the reducer (`systemSlice`'s `reducers` and `extraReducers`
cases), the migration function `migrateSystemState`, and the persistence
configuration `systemPersistConfig`, and prove properties of event
sequences folded over the reducer from `initialSystemState`.
-/

namespace InvokeAI

/-- The closed status enumeration of the `status` field
(`SystemStatus` in the slice's `types.ts`). -/
inductive SystemStatus where
  | DISCONNECTED
  | CONNECTED
  | PROCESSING
  | LOADING_MODEL
  deriving DecidableEq, Repr

/-- Queue-item statuses carried by the `socketQueueItemStatusChanged`
payload (`queue_item.status`). -/
inductive QueueItemStatus where
  | pending
  | in_progress
  | completed
  | canceled
  | failed
  deriving DecidableEq, Repr

/-- Modelled from the spec: `calculateStepPercentage` lives in
`features/system/util/calculateStepPercentage`, which is not among the
source files; §4.3 of the spec specifies only a pure function
`fraction(step, totalSteps, order) -> float in [0,1]` whose exact
interpolation policy is an implementation choice.  No claim depends on the
value it produces (it is only stored inside the progress record), so we
pick a simple representative satisfying the spec's boundary constraints. -/
def calculateStepPercentage (step total_steps order : Int) : Rat :=
  if total_steps * order = 0 then 0
  else (step + 1 : Rat) / ((total_steps : Rat) * (order : Rat))

/-- The `denoiseProgress` record built by the `socketGeneratorProgress`
case.  `progress_image` is an opaque payload the reducer merely carries
through; we represent it by an optional string. -/
structure DenoiseProgress where
  step : Int
  total_steps : Int
  order : Int
  percentage : Rat
  progress_image : Option String
  session_id : String
  batch_id : String
  deriving DecidableEq, Repr

/-- The aggregate `SystemState` of the slice. -/
structure SystemState where
  _version : Int
  isConnected : Bool
  shouldConfirmOnDelete : Bool
  enableImageDebugging : Bool
  denoiseProgress : Option DenoiseProgress
  shouldAntialiasProgressImage : Bool
  consoleLogLevel : String
  shouldLogToConsole : Bool
  language : String
  shouldUseNSFWChecker : Bool
  shouldUseWatermarker : Bool
  shouldEnableInformationalPopovers : Bool
  status : SystemStatus
  cancellations : List String
  deriving DecidableEq, Repr

/-- The initial snapshot `initialSystemState` from the slice. -/
def initialSystemState : SystemState where
  _version := 1
  isConnected := false
  shouldConfirmOnDelete := true
  enableImageDebugging := false
  denoiseProgress := none
  shouldAntialiasProgressImage := false
  consoleLogLevel := "debug"
  shouldLogToConsole := true
  language := "en"
  shouldUseNSFWChecker := false
  shouldUseWatermarker := false
  shouldEnableInformationalPopovers := false
  status := SystemStatus.DISCONNECTED
  cancellations := []

/-- Every action the slice handles: the nine named preference reducers of
`systemSlice.reducers` followed by the socket cases of `extraReducers`,
with the payload fields each case actually reads. -/
inductive SystemAction where
  | setShouldConfirmOnDelete (b : Bool)
  | setEnableImageDebugging (b : Bool)
  | consoleLogLevelChanged (level : String)
  | shouldLogToConsoleChanged (b : Bool)
  | shouldAntialiasProgressImageChanged (b : Bool)
  | languageChanged (lang : String)
  | shouldUseNSFWCheckerChanged (b : Bool)
  | shouldUseWatermarkerChanged (b : Bool)
  | setShouldEnableInformationalPopovers (b : Bool)
  | socketConnected
  | socketDisconnected
  | socketInvocationStarted
  | socketGeneratorProgress (step total_steps order : Int)
      (progress_image : Option String)
      (graph_execution_state_id : String) (queue_batch_id : String)
  | socketInvocationComplete
  | socketGraphExecutionStateComplete
  | socketModelLoadStarted
  | socketModelLoadCompleted
  | socketQueueItemStatusChanged (qstatus : QueueItemStatus) (session_id : String)
  deriving DecidableEq, Repr

/-- The reducer of `systemSlice`, one `match` arm per `reducers` entry and
`extraReducers` case, translated statement by statement. -/
def systemReducer (state : SystemState) (action : SystemAction) : SystemState :=
  match action with
  | .setShouldConfirmOnDelete b => { state with shouldConfirmOnDelete := b }
  | .setEnableImageDebugging b => { state with enableImageDebugging := b }
  | .consoleLogLevelChanged level => { state with consoleLogLevel := level }
  | .shouldLogToConsoleChanged b => { state with shouldLogToConsole := b }
  | .shouldAntialiasProgressImageChanged b =>
      { state with shouldAntialiasProgressImage := b }
  | .languageChanged lang => { state with language := lang }
  | .shouldUseNSFWCheckerChanged b => { state with shouldUseNSFWChecker := b }
  | .shouldUseWatermarkerChanged b => { state with shouldUseWatermarker := b }
  | .setShouldEnableInformationalPopovers b =>
      { state with shouldEnableInformationalPopovers := b }
  | .socketConnected =>
      { state with
        isConnected := true
        denoiseProgress := none
        status := SystemStatus.CONNECTED }
  | .socketDisconnected =>
      { state with
        isConnected := false
        denoiseProgress := none
        status := SystemStatus.DISCONNECTED }
  | .socketInvocationStarted =>
      { state with
        cancellations := []
        denoiseProgress := none
        status := SystemStatus.PROCESSING }
  | .socketGeneratorProgress step total_steps order progress_image
      session_id batch_id =>
      -- Do not update the progress if this session has been cancelled.
      if state.cancellations.contains session_id then
        state
      else
        { state with
          denoiseProgress := some
            { step := step
              total_steps := total_steps
              order := order
              percentage := calculateStepPercentage step total_steps order
              progress_image := progress_image
              session_id := session_id
              batch_id := batch_id }
          status := SystemStatus.PROCESSING }
  | .socketInvocationComplete =>
      { state with
        denoiseProgress := none
        status := SystemStatus.CONNECTED }
  | .socketGraphExecutionStateComplete =>
      { state with
        denoiseProgress := none
        status := SystemStatus.CONNECTED }
  | .socketModelLoadStarted =>
      { state with status := SystemStatus.LOADING_MODEL }
  | .socketModelLoadCompleted =>
      { state with status := SystemStatus.CONNECTED }
  | .socketQueueItemStatusChanged qstatus session_id =>
      if [QueueItemStatus.completed, QueueItemStatus.canceled,
          QueueItemStatus.failed].contains qstatus then
        { state with
          status := SystemStatus.CONNECTED
          denoiseProgress := none
          cancellations := state.cancellations ++ [session_id] }
      else
        state

/-- Fold a sequence of actions over the reducer starting from the initial
state: the set of reachable states is the range of this function. -/
def applyActions (actions : List SystemAction) : SystemState :=
  actions.foldl systemReducer initialSystemState

/-- A JavaScript value stored in a raw persisted shape.  `migrateSystemState`
operates on an untyped (`any`) object, so the shape is a list of
property-name/value pairs. -/
inductive JSValue where
  | null
  | bool (b : Bool)
  | num (n : Int)
  | str (s : String)
  deriving DecidableEq, Repr

/-- A raw persisted shape: an untyped JavaScript object, as the ordered list
of its property-name/value pairs (no key occurs twice in a well-formed
object, but nothing here relies on that). -/
abbrev RawShape : Type := List (String × JSValue)

/-- The JavaScript `key in obj` test. -/
def hasKey (shape : RawShape) (key : String) : Bool :=
  shape.any fun entry => entry.1 == key

/-- Property lookup `obj[key]` on a raw shape. -/
def getKey (shape : RawShape) (key : String) : Option JSValue :=
  (shape.find? fun entry => entry.1 == key).map fun entry => entry.2

/-- The migration function `migrateSystemState` from the slice: if the raw shape has no
`_version` property, set `_version` to `1` (a fresh property is appended to
the object); otherwise return the shape unchanged. -/
def migrateSystemState (state : RawShape) : RawShape :=
  if hasKey state "_version" then state
  else state ++ [("_version", JSValue.num 1)]

/-- The field denylist `systemPersistConfig.persistDenylist` from the slice. -/
def persistDenylist : List String :=
  ["isConnected", "denoiseProgress", "status", "cancellations"]

/-- Modelled from the spec: the persist/rehydrate machinery referenced by
`systemPersistConfig` lives in `app/store/store`, which is not among the
source files.  Per the spec (§4.4), fields on the denylist are never
written to durable storage and are always reset to their initial values on
load, while every other field survives the round trip.  `persistRestore`
is the resulting persist-then-restore composite: each field is taken from
`initialSystemState` when its name is on `persistDenylist` and from the
saved state otherwise. -/
def persistRestore (saved : SystemState) : SystemState where
  _version :=
    if persistDenylist.contains "_version" then initialSystemState._version
    else saved._version
  isConnected :=
    if persistDenylist.contains "isConnected" then initialSystemState.isConnected
    else saved.isConnected
  shouldConfirmOnDelete :=
    if persistDenylist.contains "shouldConfirmOnDelete" then
      initialSystemState.shouldConfirmOnDelete
    else saved.shouldConfirmOnDelete
  enableImageDebugging :=
    if persistDenylist.contains "enableImageDebugging" then
      initialSystemState.enableImageDebugging
    else saved.enableImageDebugging
  denoiseProgress :=
    if persistDenylist.contains "denoiseProgress" then
      initialSystemState.denoiseProgress
    else saved.denoiseProgress
  shouldAntialiasProgressImage :=
    if persistDenylist.contains "shouldAntialiasProgressImage" then
      initialSystemState.shouldAntialiasProgressImage
    else saved.shouldAntialiasProgressImage
  consoleLogLevel :=
    if persistDenylist.contains "consoleLogLevel" then
      initialSystemState.consoleLogLevel
    else saved.consoleLogLevel
  shouldLogToConsole :=
    if persistDenylist.contains "shouldLogToConsole" then
      initialSystemState.shouldLogToConsole
    else saved.shouldLogToConsole
  language :=
    if persistDenylist.contains "language" then initialSystemState.language
    else saved.language
  shouldUseNSFWChecker :=
    if persistDenylist.contains "shouldUseNSFWChecker" then
      initialSystemState.shouldUseNSFWChecker
    else saved.shouldUseNSFWChecker
  shouldUseWatermarker :=
    if persistDenylist.contains "shouldUseWatermarker" then
      initialSystemState.shouldUseWatermarker
    else saved.shouldUseWatermarker
  shouldEnableInformationalPopovers :=
    if persistDenylist.contains "shouldEnableInformationalPopovers" then
      initialSystemState.shouldEnableInformationalPopovers
    else saved.shouldEnableInformationalPopovers
  status :=
    if persistDenylist.contains "status" then initialSystemState.status
    else saved.status
  cancellations :=
    if persistDenylist.contains "cancellations" then
      initialSystemState.cancellations
    else saved.cancellations

end InvokeAI

namespace InvokeAI

/-! ### Helper lemmas -/

lemma getKey_append (x y : RawShape) (k : String) :
    getKey (x ++ y) k = if hasKey x k then getKey x k else getKey y k := by
  induction x with
  | nil => simp [getKey, hasKey]
  | cons a x ih =>
    by_cases h : a.1 == k
    · simp [getKey, hasKey, List.find?_cons, h]
    · simp only [getKey, hasKey, List.cons_append, List.find?_cons, List.any_cons, h,
        Bool.false_or, cond_false] at ih ⊢
      exact ih

lemma getKey_eq_none_of_not_hasKey (x : RawShape) (k : String)
    (h : hasKey x k = false) : getKey x k = none := by
  induction x with
  | nil => rfl
  | cons a x ih =>
    simp only [hasKey, List.any_cons, Bool.or_eq_false_iff] at h
    have hx := ih h.2
    simpa [getKey, List.find?_cons, h.1] using hx

lemma hasKey_append (x y : RawShape) (k : String) :
    hasKey (x ++ y) k = (hasKey x k || hasKey y k) := by
  simp [hasKey]

lemma step_inv (s : SystemState) (a : SystemAction)
    (h : s.denoiseProgress = none ∨ s.status ≠ SystemStatus.DISCONNECTED) :
    (systemReducer s a).denoiseProgress = none ∨
      (systemReducer s a).status ≠ SystemStatus.DISCONNECTED := by
  cases a <;> simp [systemReducer] <;> try exact h
  case socketGeneratorProgress step ts ord img sid bid =>
    split
    · exact h
    · simp
  case socketQueueItemStatusChanged q sid =>
    split
    · simp
    · exact h

lemma foldl_inv (l : List SystemAction) (s : SystemState)
    (h : s.denoiseProgress = none ∨ s.status ≠ SystemStatus.DISCONNECTED) :
    (l.foldl systemReducer s).denoiseProgress = none ∨
      (l.foldl systemReducer s).status ≠ SystemStatus.DISCONNECTED := by
  induction l generalizing s with
  | nil => exact h
  | cons a t ih => exact ih (systemReducer s a) (step_inv s a h)

/-! ### Claims -/

/-- C1: if the progress event's session id is already in `cancellations`,
the `socketGeneratorProgress` handler is a complete no-op: the resulting
state equals the prior state in every field. -/
theorem progressIgnoredWhenCancelled (s : SystemState)
    (step total_steps order : Int) (img : Option String) (sid bid : String)
    (h : sid ∈ s.cancellations) :
    systemReducer s
      (SystemAction.socketGeneratorProgress step total_steps order img sid bid) = s := by
  simp [systemReducer, h]

/-- Witness for C1: a state with `"s1"` cancelled absorbs a progress event
for session `"s1"` unchanged. -/
theorem progressIgnoredWhenCancelled_witness :
    systemReducer { initialSystemState with cancellations := ["s1"] }
      (SystemAction.socketGeneratorProgress 5 10 1 none "s1" "b1")
      = { initialSystemState with cancellations := ["s1"] } :=
  progressIgnoredWhenCancelled _ 5 10 1 none "s1" "b1" (by decide)

/-- Counterexample to C2 as stated: after `socketInvocationStarted`, a
progress event, and `socketModelLoadCompleted`, the reachable state has a
non-null `denoiseProgress` while `status = CONNECTED ≠ PROCESSING`: the
model-load handlers change `status` without clearing progress. -/
theorem statusProgressClaimCounterexample :
    (applyActions [SystemAction.socketInvocationStarted,
      SystemAction.socketGeneratorProgress 0 10 1 none "s1" "b1",
      SystemAction.socketModelLoadCompleted]).denoiseProgress ≠ none ∧
    (applyActions [SystemAction.socketInvocationStarted,
      SystemAction.socketGeneratorProgress 0 10 1 none "s1" "b1",
      SystemAction.socketModelLoadCompleted]).status ≠ SystemStatus.PROCESSING := by
  decide

/-- C2 (amended): every reachable state's `status` lies in the closed
four-value enumeration, and `denoiseProgress` is non-null only when
`status ≠ DISCONNECTED` (`status = PROCESSING` fails: the model-load
handlers move `status` away from `PROCESSING` without clearing
`denoiseProgress`). -/
theorem statusEnumProgressInvariant (events : List SystemAction) :
    [SystemStatus.DISCONNECTED, SystemStatus.CONNECTED, SystemStatus.PROCESSING,
      SystemStatus.LOADING_MODEL].contains (applyActions events).status = true ∧
    ((applyActions events).denoiseProgress ≠ none →
      (applyActions events).status ≠ SystemStatus.DISCONNECTED) := by
  constructor
  · cases h : (applyActions events).status <;> rfl
  · intro hp
    rcases foldl_inv events initialSystemState (Or.inl rfl) with h | h
    · exact absurd h hp
    · exact h

/-- Witness for C2 (amended): a reachable state with non-null progress
indeed has a status other than `DISCONNECTED`. -/
theorem statusEnumProgressInvariant_witness :
    (applyActions [SystemAction.socketInvocationStarted,
      SystemAction.socketGeneratorProgress 0 10 1 none "s1" "b1"]).status
      ≠ SystemStatus.DISCONNECTED :=
  (statusEnumProgressInvariant [SystemAction.socketInvocationStarted,
      SystemAction.socketGeneratorProgress 0 10 1 none "s1" "b1"]).2 (by decide)

/-- C3: from every prior state, `socketInvocationStarted` yields empty
`cancellations`, null `denoiseProgress`, and `status = PROCESSING`. -/
theorem invocationStartedResets (s : SystemState) :
    (systemReducer s SystemAction.socketInvocationStarted).cancellations = [] ∧
    (systemReducer s SystemAction.socketInvocationStarted).denoiseProgress = none ∧
    (systemReducer s SystemAction.socketInvocationStarted).status
      = SystemStatus.PROCESSING :=
  ⟨rfl, rfl, rfl⟩

/-- C4: a `socketQueueItemStatusChanged` with terminal status yields
`status = CONNECTED`, null progress, and the session id a member of
`cancellations`; with status `pending` or `in_progress` the state is
unchanged. -/
theorem queueItemStatusChangedEffect (s : SystemState) (q : QueueItemStatus)
    (sid : String) :
    ((q = QueueItemStatus.completed ∨ q = QueueItemStatus.canceled ∨
        q = QueueItemStatus.failed) →
      (systemReducer s (SystemAction.socketQueueItemStatusChanged q sid)).status
          = SystemStatus.CONNECTED ∧
      (systemReducer s (SystemAction.socketQueueItemStatusChanged q sid)).denoiseProgress
          = none ∧
      sid ∈ (systemReducer s
          (SystemAction.socketQueueItemStatusChanged q sid)).cancellations) ∧
    ((q = QueueItemStatus.pending ∨ q = QueueItemStatus.in_progress) →
      systemReducer s (SystemAction.socketQueueItemStatusChanged q sid) = s) := by
  cases q <;> simp [systemReducer]

/-- Witness for C4: concrete instances of both branches at the initial
state with session id `"abc"`. -/
theorem queueItemStatusChangedEffect_witness :
    (systemReducer initialSystemState
      (SystemAction.socketQueueItemStatusChanged QueueItemStatus.completed "abc")).status
      = SystemStatus.CONNECTED ∧
    systemReducer initialSystemState
      (SystemAction.socketQueueItemStatusChanged QueueItemStatus.pending "abc")
      = initialSystemState :=
  ⟨((queueItemStatusChangedEffect initialSystemState QueueItemStatus.completed "abc").1
      (Or.inl rfl)).1,
   (queueItemStatusChangedEffect initialSystemState QueueItemStatus.pending "abc").2
      (Or.inl rfl)⟩

/-- C5: the cancellation-race scenario — connect, invocation start, first
progress, terminal cancel for `"s1"`, then a late progress event for
`"s1"` — ends with `status = CONNECTED`, null progress, and
`cancellations = ["s1"]`: the late progress event is dropped. -/
theorem cancelRaceScenario :
    (applyActions [SystemAction.socketConnected,
      SystemAction.socketInvocationStarted,
      SystemAction.socketGeneratorProgress 0 10 1 none "s1" "b1",
      SystemAction.socketQueueItemStatusChanged QueueItemStatus.canceled "s1",
      SystemAction.socketGeneratorProgress 5 10 1 none "s1" "b1"]).status
        = SystemStatus.CONNECTED ∧
    (applyActions [SystemAction.socketConnected,
      SystemAction.socketInvocationStarted,
      SystemAction.socketGeneratorProgress 0 10 1 none "s1" "b1",
      SystemAction.socketQueueItemStatusChanged QueueItemStatus.canceled "s1",
      SystemAction.socketGeneratorProgress 5 10 1 none "s1" "b1"]).denoiseProgress
        = none ∧
    (applyActions [SystemAction.socketConnected,
      SystemAction.socketInvocationStarted,
      SystemAction.socketGeneratorProgress 0 10 1 none "s1" "b1",
      SystemAction.socketQueueItemStatusChanged QueueItemStatus.canceled "s1",
      SystemAction.socketGeneratorProgress 5 10 1 none "s1" "b1"]).cancellations
        = ["s1"] := by
  decide

/-- C6: per-action characterization of `cancellations`: only
`socketInvocationStarted` clears it, only a terminal
`socketQueueItemStatusChanged` appends to it, and every other action
leaves it unchanged. -/
theorem cancellationsCharacterization (s : SystemState) (a : SystemAction) :
    (systemReducer s a).cancellations =
      match a with
      | SystemAction.socketInvocationStarted => []
      | SystemAction.socketQueueItemStatusChanged q sid =>
          if [QueueItemStatus.completed, QueueItemStatus.canceled,
              QueueItemStatus.failed].contains q then s.cancellations ++ [sid]
          else s.cancellations
      | _ => s.cancellations := by
  cases a <;> first
  | rfl
  | (simp only [systemReducer]; split <;> rfl)

/-- C7: the persistence configuration's denylist holds exactly the four
transient field names, and a persist-then-restore round trip resets those
four fields to their initial values while preserving `_version` and every
durable preference field of the saved state. -/
theorem persistRoundTrip (s : SystemState) :
    persistDenylist = ["isConnected", "denoiseProgress", "status", "cancellations"] ∧
    (persistRestore s).isConnected = false ∧
    (persistRestore s).denoiseProgress = none ∧
    (persistRestore s).status = SystemStatus.DISCONNECTED ∧
    (persistRestore s).cancellations = [] ∧
    (persistRestore s)._version = s._version ∧
    (persistRestore s).shouldConfirmOnDelete = s.shouldConfirmOnDelete ∧
    (persistRestore s).enableImageDebugging = s.enableImageDebugging ∧
    (persistRestore s).shouldAntialiasProgressImage = s.shouldAntialiasProgressImage ∧
    (persistRestore s).consoleLogLevel = s.consoleLogLevel ∧
    (persistRestore s).shouldLogToConsole = s.shouldLogToConsole ∧
    (persistRestore s).language = s.language ∧
    (persistRestore s).shouldUseNSFWChecker = s.shouldUseNSFWChecker ∧
    (persistRestore s).shouldUseWatermarker = s.shouldUseWatermarker ∧
    (persistRestore s).shouldEnableInformationalPopovers
      = s.shouldEnableInformationalPopovers :=
  ⟨rfl, rfl, rfl, rfl, rfl, rfl, rfl, rfl, rfl, rfl, rfl, rfl, rfl, rfl, rfl⟩

/-- C8: migrating a shape without a `_version` property yields `_version`
mapped to `1` with every other property unchanged; migrating a shape that
already has `_version` returns it exactly as given. -/
theorem migrateStampsVersion (x : RawShape) :
    (hasKey x "_version" = false →
      getKey (migrateSystemState x) "_version" = some (JSValue.num 1) ∧
      ∀ k : String, k ≠ "_version" →
        getKey (migrateSystemState x) k = getKey x k) ∧
    (hasKey x "_version" = true → migrateSystemState x = x) := by
  constructor
  · intro h
    constructor
    · rw [migrateSystemState, if_neg (by simp [h]), getKey_append, h]
      rfl
    · intro k hk
      rw [migrateSystemState, if_neg (by simp [h]), getKey_append]
      cases hx : hasKey x k
      · rw [getKey_eq_none_of_not_hasKey x k hx]
        have hne : ("_version" == k) = false := by
          simp only [beq_eq_false_iff_ne]
          exact Ne.symm hk
        simp [getKey, List.find?_cons, hne]
      · rfl
  · intro h
    simp [migrateSystemState, h]

/-- Witness for C8: a one-property shape gets stamped with `_version = 1`,
and a shape already carrying `_version` is returned unchanged. -/
theorem migrateStampsVersion_witness :
    getKey (migrateSystemState [("language", JSValue.str "en")]) "_version"
      = some (JSValue.num 1) ∧
    migrateSystemState [("_version", JSValue.num 1)]
      = [("_version", JSValue.num 1)] :=
  ⟨((migrateStampsVersion [("language", JSValue.str "en")]).1 (by decide)).1,
   (migrateStampsVersion [("_version", JSValue.num 1)]).2 (by decide)⟩

/-- C9: `migrateSystemState` is idempotent on every raw shape. -/
theorem migrateIdempotent (x : RawShape) :
    migrateSystemState (migrateSystemState x) = migrateSystemState x := by
  by_cases h : hasKey x "_version"
  · simp [migrateSystemState, h]
  · have h2 : hasKey (x ++ [("_version", JSValue.num 1)]) "_version" = true := by
      simp [hasKey_append, hasKey]
    simp only [migrateSystemState, h, if_neg, Bool.false_eq_true, if_false, h2, if_true]

/-- Counterexample to C10 as stated: two terminal queue events for the
same session `"s1"` produce the reachable `cancellations = ["s1", "s1"]`,
which contains a duplicate. -/
theorem cancellationsNodupCounterexample :
    ¬ (applyActions
      [SystemAction.socketQueueItemStatusChanged QueueItemStatus.completed "s1",
       SystemAction.socketQueueItemStatusChanged QueueItemStatus.completed "s1"]).cancellations.Nodup := by
  decide

/-- C10 (amended): `cancellations` is a list, not a duplicate-free set — a
terminal `socketQueueItemStatusChanged` appends its session id
unconditionally, even when the id is already a member, so reachable states
may hold duplicates. -/
theorem terminalAppendsUnconditionally (s : SystemState) (q : QueueItemStatus)
    (sid : String)
    (h : q = QueueItemStatus.completed ∨ q = QueueItemStatus.canceled ∨
      q = QueueItemStatus.failed) :
    (systemReducer s (SystemAction.socketQueueItemStatusChanged q sid)).cancellations
      = s.cancellations ++ [sid] := by
  rcases h with rfl | rfl | rfl <;> rfl

/-- Witness for C10 (amended): appending to a state already containing
`"s1"` yields the duplicated list `["s1", "s1"]`. -/
theorem terminalAppendsUnconditionally_witness :
    (systemReducer { initialSystemState with cancellations := ["s1"] }
      (SystemAction.socketQueueItemStatusChanged QueueItemStatus.completed "s1")).cancellations
      = ["s1", "s1"] :=
  terminalAppendsUnconditionally { initialSystemState with cancellations := ["s1"] }
    QueueItemStatus.completed "s1" (Or.inl rfl)

end InvokeAI
